import Mathlib

/-!
Verification of the driver-vigilance monitoring core
(`src/AAI Mini project/src/monitoring.js`).

The embedding has two layers, mirroring the source:

* the feature extractors `euclideanDistance`, `calculateEAR`,
  `calculateMAR`, `calculateHeadPose` (monitoring.js lines 83-142),
  over landmark points with rational coordinates (distances land in `ℝ`
  because of the square root);
* the per-frame hysteresis/alert state machine of `predictWebcam`
  (monitoring.js lines 309-397) together with `updateAlert`
  (lines 144-149) and the reset logic of `stopMonitoring`
  (lines 472-521), expressed as explicit state passing over a
  `MonState`.  The machine consumes the scalar feature triple
  `(ear, mar, yawRatio)` that `predictWebcam` computes from the
  landmarks, with `Option` marking frames where the detector yielded
  no face (the `results.faceLandmarks.length > 0` guard, line 309).
-/

/-- A single MediaPipe landmark: normalized 3D coordinates `{x, y, z}`. -/
structure Point where
  x : ℚ
  y : ℚ
  z : ℚ
deriving DecidableEq

/-- A landmark frame: index-addressed points (the source indexes a
    plain array; specific roles are fixed index constants). -/
def LandmarkFrame := Nat → Point

/-- monitoring.js line 37: `const EAR_THRESHOLD_CLOSED = 0.18`. -/
def EAR_THRESHOLD_CLOSED : ℚ := 18/100

/-- monitoring.js line 38: `const EAR_THRESHOLD_PARTIALLY = 0.22`. -/
def EAR_THRESHOLD_PARTIALLY : ℚ := 22/100

/-- monitoring.js line 41: `const MAR_THRESHOLD_YAWN = 0.6`. -/
def MAR_THRESHOLD_YAWN : ℚ := 6/10

/-- monitoring.js line 42: `const MAR_THRESHOLD_ALERT = 0.8`. -/
def MAR_THRESHOLD_ALERT : ℚ := 8/10

/-- monitoring.js line 46: `const YAW_RATIO_LEFT = 0.4`. -/
def YAW_RATIO_LEFT : ℚ := 4/10

/-- monitoring.js line 47: `const YAW_RATIO_RIGHT = 2.5`. -/
def YAW_RATIO_RIGHT : ℚ := 25/10

/-- monitoring.js line 49: `const CONSECUTIVE_FRAMES = 15`. -/
def CONSECUTIVE_FRAMES : ℕ := 15

/-- monitoring.js lines 83-88: 3D Euclidean distance
    `Math.sqrt(dx*dx + dy*dy + dz*dz)`. -/
noncomputable def euclideanDistance (point1 point2 : Point) : ℝ :=
  Real.sqrt (((point1.x - point2.x) * (point1.x - point2.x)
    + (point1.y - point2.y) * (point1.y - point2.y)
    + (point1.z - point2.z) * (point1.z - point2.z) : ℚ) : ℝ)

/-- monitoring.js lines 90-107: eye aspect ratio, mean of the two
    per-eye ratios `(V1+V2)/(2*H)`. -/
noncomputable def calculateEAR (landmarks : LandmarkFrame) : ℝ :=
  let leftEyeV1 := euclideanDistance (landmarks 160) (landmarks 144)
  let leftEyeV2 := euclideanDistance (landmarks 158) (landmarks 153)
  let leftEyeH := euclideanDistance (landmarks 33) (landmarks 133)
  let rightEyeV1 := euclideanDistance (landmarks 385) (landmarks 380)
  let rightEyeV2 := euclideanDistance (landmarks 387) (landmarks 373)
  let rightEyeH := euclideanDistance (landmarks 362) (landmarks 263)
  let leftEAR := (leftEyeV1 + leftEyeV2) / (2 * leftEyeH)
  let rightEAR := (rightEyeV1 + rightEyeV2) / (2 * rightEyeH)
  (leftEAR + rightEAR) / 2

/-- monitoring.js lines 109-117: mouth aspect ratio, inner-lip vertical
    distance over mouth-corner horizontal distance. -/
noncomputable def calculateMAR (landmarks : LandmarkFrame) : ℝ :=
  let mouthVertical := euclideanDistance (landmarks 13) (landmarks 14)
  let mouthHorizontal := euclideanDistance (landmarks 78) (landmarks 308)
  mouthVertical / mouthHorizontal

/-- Result record of `calculateHeadPose` (monitoring.js lines 136-141). -/
structure HeadPose where
  yawRatio : ℚ
  pitch : ℚ
  roll : ℚ
deriving DecidableEq

/-- monitoring.js lines 119-142: head pose from horizontal (x-only)
    nose-to-cheek distances; `safeRightDist` substitutes `0.001` when
    `rightDist === 0`. -/
def calculateHeadPose (landmarks : LandmarkFrame) : HeadPose :=
  let noseTip := landmarks 1
  let leftCheek := landmarks 234
  let rightCheek := landmarks 454
  let leftDist := |noseTip.x - leftCheek.x|
  let rightDist := |rightCheek.x - noseTip.x|
  let safeRightDist := if rightDist = 0 then 1/1000 else rightDist
  { yawRatio := leftDist / safeRightDist, pitch := 0, roll := 0 }

/-- The five alert kinds (the source uses message strings as `Set`
    elements): "EYES CLOSED", "EYES PARTIALLY CLOSED",
    "YAWNING DETECTED", "EXCESSIVE YAWNING", "HEAD NOT FORWARD". -/
inductive AlertKind where
  | eyesClosed
  | eyesPartiallyClosed
  | yawningDetected
  | excessiveYawning
  | headNotForward
deriving DecidableEq

/-- monitoring.js lines 144-149: the state effect of `updateAlert` on
    `currentAlerts` (`Set.add` / `Set.delete`); the audio/DOM part of
    the function is external I/O. -/
def updateAlert (kind : AlertKind) (isActive : Bool) (currentAlerts : Finset AlertKind) :
    Finset AlertKind :=
  if isActive then insert kind currentAlerts else currentAlerts.erase kind

/-- `eyeStatus` labels (monitoring.js lines 316, 328, 336, 342). -/
inductive EyeStatus where
  | OPEN
  | PARTIALLY_CLOSED
  | CLOSED
deriving DecidableEq

/-- `yawnStatus` labels (monitoring.js lines 317, 353, 363). -/
inductive YawnStatus where
  | NORMAL
  | YAWNING
deriving DecidableEq

/-- `headStatus` labels (monitoring.js lines 318, 378, 383). -/
inductive HeadStatus where
  | FORWARD
  | TURNED
deriving DecidableEq

/-- `driverStatus` values (monitoring.js lines 319, 390, 392). -/
inductive DriverStatus where
  | SAFE
  | DROWSY
deriving DecidableEq

/-- The scalar features `predictWebcam` computes per detected frame
    (monitoring.js lines 312-314): `ear`, `mar` and
    `headPose.yawRatio`. -/
structure FeatureSet where
  ear : ℚ
  mar : ℚ
  yawRatio : ℚ
deriving DecidableEq

/-- The mutable monitoring state: the four hysteresis counters
    (monitoring.js lines 51-54) and the active alert set (line 56). -/
structure MonState where
  eyeClosedFrames : ℕ
  eyePartiallyClosedFrames : ℕ
  yawnFrames : ℕ
  headTurnedFrames : ℕ
  currentAlerts : Finset AlertKind
deriving DecidableEq

/-- Initial state: all counters `0`, `currentAlerts` empty
    (monitoring.js lines 51-56). -/
def initialState : MonState :=
  { eyeClosedFrames := 0, eyePartiallyClosedFrames := 0, yawnFrames := 0,
    headTurnedFrames := 0, currentAlerts := ∅ }

/-- Per-frame output handed to `updateUI` (monitoring.js line 395) plus
    the active alert-set snapshot it reads from `currentAlerts`. -/
structure FrameOutput where
  ear : ℚ
  mar : ℚ
  yawRatio : ℚ
  eyeStatus : EyeStatus
  yawnStatus : YawnStatus
  headStatus : HeadStatus
  driverStatus : DriverStatus
  activeAlerts : Finset AlertKind
deriving DecidableEq

/-- Eye-status section of `predictWebcam` (monitoring.js lines 321-345). -/
def eyeSection (ear : ℚ) (s : MonState) : MonState × EyeStatus :=
  if ear < EAR_THRESHOLD_CLOSED then
    let c := s.eyeClosedFrames + 1
    let s1 := { s with eyeClosedFrames := c, eyePartiallyClosedFrames := 0 }
    if CONSECUTIVE_FRAMES ≤ c then
      ({ s1 with currentAlerts := updateAlert .eyesClosed true s1.currentAlerts },
        EyeStatus.CLOSED)
    else (s1, EyeStatus.OPEN)
  else if ear < EAR_THRESHOLD_PARTIALLY then
    let c := s.eyePartiallyClosedFrames + 1
    let s1 := { s with eyePartiallyClosedFrames := c, eyeClosedFrames := 0 }
    if CONSECUTIVE_FRAMES ≤ c then
      ({ s1 with currentAlerts := updateAlert .eyesPartiallyClosed true s1.currentAlerts },
        EyeStatus.PARTIALLY_CLOSED)
    else (s1, EyeStatus.OPEN)
  else
    ({ s with
        eyeClosedFrames := 0, eyePartiallyClosedFrames := 0,
        currentAlerts :=
          updateAlert .eyesPartiallyClosed false
            (updateAlert .eyesClosed false s.currentAlerts) },
      EyeStatus.OPEN)

/-- Yawning section of `predictWebcam` (monitoring.js lines 347-366);
    the alert kind is selected from the current frame's `mar` at the
    moment of emission. -/
def yawnSection (mar : ℚ) (s : MonState) : MonState × YawnStatus :=
  if MAR_THRESHOLD_YAWN < mar then
    let c := s.yawnFrames + 1
    let s1 := { s with yawnFrames := c }
    if CONSECUTIVE_FRAMES ≤ c then
      if MAR_THRESHOLD_ALERT < mar then
        ({ s1 with currentAlerts := updateAlert .excessiveYawning true s1.currentAlerts },
          YawnStatus.YAWNING)
      else
        ({ s1 with currentAlerts := updateAlert .yawningDetected true s1.currentAlerts },
          YawnStatus.YAWNING)
    else (s1, YawnStatus.NORMAL)
  else
    ({ s with
        yawnFrames := 0,
        currentAlerts :=
          updateAlert .excessiveYawning false
            (updateAlert .yawningDetected false s.currentAlerts) },
      YawnStatus.NORMAL)

/-- Head-posture section of `predictWebcam` (monitoring.js lines 368-385). -/
def headSection (yawRatio : ℚ) (s : MonState) : MonState × HeadStatus :=
  if yawRatio < YAW_RATIO_LEFT ∨ YAW_RATIO_RIGHT < yawRatio then
    let c := s.headTurnedFrames + 1
    let s1 := { s with headTurnedFrames := c }
    if CONSECUTIVE_FRAMES ≤ c then
      ({ s1 with currentAlerts := updateAlert .headNotForward true s1.currentAlerts },
        HeadStatus.TURNED)
    else (s1, HeadStatus.FORWARD)
  else
    ({ s with
        headTurnedFrames := 0,
        currentAlerts := updateAlert .headNotForward false s.currentAlerts },
      HeadStatus.FORWARD)

/-- Processing of one detected frame: the body of `predictWebcam` for a
    frame with landmarks (monitoring.js lines 309-396), at the level of
    the computed features; `driverStatus` is derived at the end from
    `currentAlerts.size > 0` (lines 389-393). -/
def processDetected (fs : FeatureSet) (s : MonState) : MonState × FrameOutput :=
  let e := eyeSection fs.ear s
  let y := yawnSection fs.mar e.1
  let h := headSection fs.yawRatio y.1
  let driverStatus :=
    if 0 < h.1.currentAlerts.card then DriverStatus.DROWSY else DriverStatus.SAFE
  (h.1,
    { ear := fs.ear, mar := fs.mar, yawRatio := fs.yawRatio,
      eyeStatus := e.2, yawnStatus := y.2, headStatus := h.2,
      driverStatus := driverStatus, activeAlerts := h.1.currentAlerts })

/-- One call of `predictWebcam` on a frame: when the detector yields no
    landmarks (`results.faceLandmarks` empty, monitoring.js line 309)
    the whole processing block is skipped and no output is produced. -/
def processFrame (s : MonState) (input : Option FeatureSet) : MonState × Option FrameOutput :=
  match input with
  | none => (s, none)
  | some fs =>
    let r := processDetected fs s
    (r.1, some r.2)

/-- Fold `processFrame` over a frame sequence, returning the final state. -/
def runFrames (s : MonState) : List (Option FeatureSet) → MonState
  | [] => s
  | i :: rest => runFrames (processFrame s i).1 rest

/-- Fold `processFrame` over a frame sequence, returning the per-frame
    outputs (`none` for frames with no detection). -/
def runOutputs (s : MonState) : List (Option FeatureSet) → List (Option FrameOutput)
  | [] => []
  | i :: rest => (processFrame s i).2 :: runOutputs (processFrame s i).1 rest

/-- A state is reachable when some frame sequence produces it from the
    initial state. -/
def Reachable (s : MonState) : Prop :=
  ∃ frames, runFrames initialState frames = s

/-- The core-state effect of `stopMonitoring` (monitoring.js lines
    491-497): `currentAlerts.clear()` and zeroing the four counters;
    the media/DOM teardown is external I/O. -/
def stopMonitoring (_s : MonState) : MonState :=
  { eyeClosedFrames := 0, eyePartiallyClosedFrames := 0, yawnFrames := 0,
    headTurnedFrames := 0, currentAlerts := ∅ }

/-- Read the eye-status label out of an entry of `runOutputs`. -/
def outEyeStatus : Option (Option FrameOutput) → Option EyeStatus
  | some (some o) => some o.eyeStatus
  | _ => none

/-- Read whether a given alert kind is active in an entry of `runOutputs`. -/
def outAlertActive (kind : AlertKind) : Option (Option FrameOutput) → Option Bool
  | some (some o) => some (decide (kind ∈ o.activeAlerts))
  | _ => none

/-- A neutral detected frame except for the eyes: `mar = 0` keeps the
    yawn branch inactive, `yawRatio = 1` keeps the head branch inactive. -/
def eyeFrame (ear : ℚ) : Option FeatureSet := some ⟨ear, 0, 1⟩

/-- A neutral detected frame except for the mouth: `ear = 3/10` keeps the
    eye branch inactive, `yawRatio = 1` keeps the head branch inactive. -/
def marFrame (mar : ℚ) : Option FeatureSet := some ⟨3/10, mar, 1⟩

/-- C2 input: 15 frames at `ear = 0.10` followed by one at `ear = 0.50`. -/
def c2Frames : List (Option FeatureSet) :=
  List.replicate 15 (eyeFrame (1/10)) ++ [eyeFrame (1/2)]

/-- C3 input: 10 closed-eye frames, one no-detection frame, then 5 more
    closed-eye frames. -/
def c3Frames : List (Option FeatureSet) :=
  List.replicate 10 (eyeFrame (1/10)) ++ [none] ++ List.replicate 5 (eyeFrame (1/10))

/-- C2: frames 1-14 of a sustained `ear = 0.10` run report `OPEN` with no
"eyes closed" alert; frame 15 reports `CLOSED` with the alert active;
frame 16 at `ear = 0.50` reports `OPEN` with the alert deactivated on
that same frame. -/
theorem eyes_closed_debounce_trigger_and_instant_clear :
    (∀ k, k < 14 →
      outEyeStatus ((runOutputs initialState c2Frames).get? k) = some EyeStatus.OPEN ∧
      outAlertActive .eyesClosed ((runOutputs initialState c2Frames).get? k) = some false) ∧
    outEyeStatus ((runOutputs initialState c2Frames).get? 14) = some EyeStatus.CLOSED ∧
    outAlertActive .eyesClosed ((runOutputs initialState c2Frames).get? 14) = some true ∧
    outEyeStatus ((runOutputs initialState c2Frames).get? 15) = some EyeStatus.OPEN ∧
    outAlertActive .eyesClosed ((runOutputs initialState c2Frames).get? 15) = some false := by
  with_unfolding_all decide

/-- C3: a no-detection frame leaves the state untouched and produces no
output; concretely, a no-detection frame inserted after 10 closed-eye
frames leaves the closed-counter at 10, and the 15th qualifying detected
frame (list index 15, after the gap) still reaches 15 and triggers the
"eyes closed" alert, which is not yet active one qualifying frame
earlier. -/
theorem no_detection_skips_processing :
    (∀ s : MonState, processFrame s none = (s, none)) ∧
    (runFrames initialState (List.replicate 10 (eyeFrame (1/10)))).eyeClosedFrames = 10 ∧
    (runFrames initialState (List.replicate 10 (eyeFrame (1/10)) ++ [none])).eyeClosedFrames = 10 ∧
    (runFrames initialState c3Frames).eyeClosedFrames = 15 ∧
    AlertKind.eyesClosed ∈ (runFrames initialState c3Frames).currentAlerts ∧
    outAlertActive .eyesClosed ((runOutputs initialState c3Frames).get? 14) = some false ∧
    outAlertActive .eyesClosed ((runOutputs initialState c3Frames).get? 15) = some true ∧
    outEyeStatus ((runOutputs initialState c3Frames).get? 15) = some EyeStatus.CLOSED :=
  ⟨fun _ => rfl, by with_unfolding_all decide, by with_unfolding_all decide,
    by with_unfolding_all decide, by with_unfolding_all decide,
    by with_unfolding_all decide, by with_unfolding_all decide,
    by with_unfolding_all decide⟩

/-- C5: 15 frames at `mar = 0.85` activate exactly the
"excessive yawning" kind and not "yawning detected"; 15 frames at
`mar = 0.65` activate "yawning detected" and not "excessive yawning";
and after 14 frames at `mar = 0.65` a 15th frame at `mar = 0.85` emits
"excessive yawning" (severity is read from the current frame's `mar` at
the moment of emission, not from the accumulation history). -/
theorem yawn_severity_selected_at_emission :
    (AlertKind.excessiveYawning ∈
        (runFrames initialState (List.replicate 15 (marFrame (85/100)))).currentAlerts ∧
      AlertKind.yawningDetected ∉
        (runFrames initialState (List.replicate 15 (marFrame (85/100)))).currentAlerts) ∧
    (AlertKind.yawningDetected ∈
        (runFrames initialState (List.replicate 15 (marFrame (65/100)))).currentAlerts ∧
      AlertKind.excessiveYawning ∉
        (runFrames initialState (List.replicate 15 (marFrame (65/100)))).currentAlerts) ∧
    (AlertKind.excessiveYawning ∈
        (runFrames initialState
          (List.replicate 14 (marFrame (65/100)) ++ [marFrame (85/100)])).currentAlerts ∧
      AlertKind.yawningDetected ∉
        (runFrames initialState
          (List.replicate 14 (marFrame (65/100)) ++ [marFrame (85/100)])).currentAlerts) := by
  with_unfolding_all decide

theorem eyeSection_counters_exclusive (ear : ℚ) (s : MonState) :
    (eyeSection ear s).1.eyeClosedFrames = 0 ∨
      (eyeSection ear s).1.eyePartiallyClosedFrames = 0 := by
  simp only [eyeSection]
  split_ifs <;> simp

theorem yawnSection_fst_eyeClosedFrames (mar : ℚ) (s : MonState) :
    (yawnSection mar s).1.eyeClosedFrames = s.eyeClosedFrames := by
  simp only [yawnSection]
  split_ifs <;> rfl

theorem yawnSection_fst_eyePartial (mar : ℚ) (s : MonState) :
    (yawnSection mar s).1.eyePartiallyClosedFrames = s.eyePartiallyClosedFrames := by
  simp only [yawnSection]
  split_ifs <;> rfl

theorem headSection_fst_eyeClosedFrames (yawRatio : ℚ) (s : MonState) :
    (headSection yawRatio s).1.eyeClosedFrames = s.eyeClosedFrames := by
  simp only [headSection]
  split_ifs <;> rfl

theorem headSection_fst_eyePartial (yawRatio : ℚ) (s : MonState) :
    (headSection yawRatio s).1.eyePartiallyClosedFrames = s.eyePartiallyClosedFrames := by
  simp only [headSection]
  split_ifs <;> rfl

theorem processFrame_some_fst (s : MonState) (fs : FeatureSet) :
    (processFrame s (some fs)).1 =
      (headSection fs.yawRatio (yawnSection fs.mar (eyeSection fs.ear s).1).1).1 := rfl

theorem processFrame_counters_exclusive (s : MonState) (i : Option FeatureSet)
    (h : s.eyeClosedFrames = 0 ∨ s.eyePartiallyClosedFrames = 0) :
    (processFrame s i).1.eyeClosedFrames = 0 ∨
      (processFrame s i).1.eyePartiallyClosedFrames = 0 := by
  cases i with
  | none => exact h
  | some fs =>
    rw [processFrame_some_fst, headSection_fst_eyeClosedFrames,
      headSection_fst_eyePartial, yawnSection_fst_eyeClosedFrames,
      yawnSection_fst_eyePartial]
    exact eyeSection_counters_exclusive fs.ear s

theorem runFrames_counters_exclusive (frames : List (Option FeatureSet))
    (s : MonState) (h : s.eyeClosedFrames = 0 ∨ s.eyePartiallyClosedFrames = 0) :
    (runFrames s frames).eyeClosedFrames = 0 ∨
      (runFrames s frames).eyePartiallyClosedFrames = 0 := by
  induction frames generalizing s with
  | nil => exact h
  | cons i rest ih => exact ih _ (processFrame_counters_exclusive s i h)

/-- C6: in every reachable state, the eye-closed counter and the
eye-partial counter are never both positive: whichever eye branch a
detected frame takes resets the other counter, and no-detection frames
change neither. -/
theorem eye_counters_never_both_positive (frames : List (Option FeatureSet)) :
    ¬(0 < (runFrames initialState frames).eyeClosedFrames ∧
      0 < (runFrames initialState frames).eyePartiallyClosedFrames) := by
  rcases runFrames_counters_exclusive frames initialState (Or.inl rfl) with h | h <;>
    omega

theorem driverStatus_ite_iff (a : Finset AlertKind) :
    ((if 0 < a.card then DriverStatus.DROWSY else DriverStatus.SAFE) =
      DriverStatus.DROWSY ↔ a ≠ ∅) := by
  split_ifs with h
  · simpa using Finset.nonempty_iff_ne_empty.mp (Finset.card_pos.mp h)
  · have : a = ∅ := Finset.card_eq_zero.mp (Nat.eq_zero_of_not_pos h)
    simp [this]

theorem processDetected_snd_driverStatus (fs : FeatureSet) (s : MonState) :
    (processDetected fs s).2.driverStatus =
      (if 0 < (processDetected fs s).2.activeAlerts.card then DriverStatus.DROWSY
        else DriverStatus.SAFE) := rfl

theorem processDetected_driver_iff (fs : FeatureSet) (s : MonState) :
    ((processDetected fs s).2.driverStatus = DriverStatus.DROWSY ↔
      (processDetected fs s).2.activeAlerts ≠ ∅) := by
  rw [processDetected_snd_driverStatus]
  exact driverStatus_ite_iff _

theorem mem_runOutputs_driver_iff (s : MonState) (frames : List (Option FeatureSet))
    (o : FrameOutput) (h : some o ∈ runOutputs s frames) :
    (o.driverStatus = DriverStatus.DROWSY ↔ o.activeAlerts ≠ ∅) := by
  induction frames generalizing s with
  | nil => simp [runOutputs] at h
  | cons i rest ih =>
    rw [runOutputs] at h
    rcases List.mem_cons.mp h with h1 | h2
    · cases i with
      | none => simp [processFrame] at h1
      | some fs =>
        have ho : o = (processDetected fs s).2 := by
          have : (processFrame s (some fs)).2 = some (processDetected fs s).2 := rfl
          rw [this] at h1
          exact Option.some_injective _ h1
        rw [ho]
        exact processDetected_driver_iff fs s
    · exact ih _ h2

/-- C1: every per-frame report produced while processing any frame
sequence from the initial state has `driverStatus = DROWSY` exactly when
its active alert set is non-empty, and `driverStatus = SAFE` exactly
when it is empty. -/
theorem reported_driverStatus_iff_alerts_nonempty
    (frames : List (Option FeatureSet)) (o : FrameOutput)
    (h : some o ∈ runOutputs initialState frames) :
    (o.driverStatus = DriverStatus.DROWSY ↔ o.activeAlerts ≠ ∅) ∧
    (o.driverStatus = DriverStatus.SAFE ↔ o.activeAlerts = ∅) := by
  have hd := mem_runOutputs_driver_iff initialState frames o h
  refine ⟨hd, ?_⟩
  rcases eq_or_ne o.activeAlerts ∅ with he | he
  · have hnd : o.driverStatus ≠ DriverStatus.DROWSY := fun hh => (hd.mp hh) he
    cases hds : o.driverStatus
    · simp [he]
    · exact absurd hds hnd
  · have hD : o.driverStatus = DriverStatus.DROWSY := hd.mpr he
    simp [hD, he]

/-- Witness for C1 at the single-frame sequence `[some ⟨1, 0, 1⟩]`. -/
theorem reported_driverStatus_iff_alerts_nonempty_witness :
    (some (processDetected ⟨1, 0, 1⟩ initialState).2 ∈
      runOutputs initialState [some ⟨1, 0, 1⟩]) ∧
    ((processDetected ⟨1, 0, 1⟩ initialState).2.driverStatus = DriverStatus.DROWSY ↔
      (processDetected ⟨1, 0, 1⟩ initialState).2.activeAlerts ≠ ∅) ∧
    ((processDetected ⟨1, 0, 1⟩ initialState).2.driverStatus = DriverStatus.SAFE ↔
      (processDetected ⟨1, 0, 1⟩ initialState).2.activeAlerts = ∅) :=
  ⟨List.mem_singleton.mpr rfl,
    reported_driverStatus_iff_alerts_nonempty [some ⟨1, 0, 1⟩] _
      (List.mem_singleton.mpr rfl)⟩

/-- C8: `stopMonitoring` zeroes all four hysteresis counters and empties
the alert set from any state, it is idempotent, and invoking it in the
already-reset initial state leaves that state unchanged. -/
theorem stopMonitoring_idempotent_and_zeroing :
    (∀ s : MonState,
      stopMonitoring (stopMonitoring s) = stopMonitoring s ∧
      (stopMonitoring s).eyeClosedFrames = 0 ∧
      (stopMonitoring s).eyePartiallyClosedFrames = 0 ∧
      (stopMonitoring s).yawnFrames = 0 ∧
      (stopMonitoring s).headTurnedFrames = 0 ∧
      (stopMonitoring s).currentAlerts = ∅) ∧
    stopMonitoring initialState = initialState :=
  ⟨fun _ => ⟨rfl, rfl, rfl, rfl, rfl, rfl⟩, rfl⟩

theorem mem_updateAlert_of_ne (k kind : AlertKind) (b : Bool) (a : Finset AlertKind)
    (hne : k ≠ kind) (h : k ∈ a) : k ∈ updateAlert kind b a := by
  unfold updateAlert
  cases b with
  | false => exact Finset.mem_erase.mpr ⟨hne, h⟩
  | true => exact Finset.mem_insert_of_mem h

theorem eyeSection_keeps_partial_alert (ear : ℚ) (s : MonState)
    (h : AlertKind.eyesPartiallyClosed ∈ s.currentAlerts)
    (hlt : ear < EAR_THRESHOLD_PARTIALLY) :
    AlertKind.eyesPartiallyClosed ∈ (eyeSection ear s).1.currentAlerts := by
  simp only [eyeSection]
  split_ifs with h1 h2 h3
  · exact mem_updateAlert_of_ne _ _ _ _ (by simp) h
  · exact h
  · exact Finset.mem_insert_of_mem h
  · exact h

theorem yawnSection_keeps_eye_alert (mar : ℚ) (s : MonState) (k : AlertKind)
    (h1 : k ≠ AlertKind.yawningDetected) (h2 : k ≠ AlertKind.excessiveYawning)
    (h : k ∈ s.currentAlerts) : k ∈ (yawnSection mar s).1.currentAlerts := by
  simp only [yawnSection]
  split_ifs
  · exact mem_updateAlert_of_ne _ _ _ _ h2 h
  · exact mem_updateAlert_of_ne _ _ _ _ h1 h
  · exact h
  · exact mem_updateAlert_of_ne _ _ _ _ h2 (mem_updateAlert_of_ne _ _ _ _ h1 h)

theorem headSection_keeps_eye_alert (yawRatio : ℚ) (s : MonState) (k : AlertKind)
    (h1 : k ≠ AlertKind.headNotForward) (h : k ∈ s.currentAlerts) :
    k ∈ (headSection yawRatio s).1.currentAlerts := by
  simp only [headSection]
  split_ifs
  · exact mem_updateAlert_of_ne _ _ _ _ h1 h
  · exact h
  · exact mem_updateAlert_of_ne _ _ _ _ h1 h

/-- C10 input: 15 frames of partial closure (`ear = 0.20`) followed by
    15 frames of full closure (`ear = 0.10`). -/
def c10Frames : List (Option FeatureSet) :=
  List.replicate 15 (eyeFrame (2/10)) ++ List.replicate 15 (eyeFrame (1/10))

set_option maxRecDepth 40000 in
/-- C10: once active, the "eyes partially closed" alert is removed only
by a detected frame with `ear ≥ EAR_THRESHOLD_PARTIALLY`; in particular
a frame with `ear < EAR_THRESHOLD_CLOSED` never deactivates it, so
sustaining partial closure past the threshold and then full closure past
the threshold makes "eyes closed" and "eyes partially closed" active
simultaneously. -/
theorem partial_alert_removed_only_by_recovery :
    (∀ (s : MonState) (i : Option FeatureSet),
      AlertKind.eyesPartiallyClosed ∈ s.currentAlerts →
      AlertKind.eyesPartiallyClosed ∉ (processFrame s i).1.currentAlerts →
      ∃ fs, i = some fs ∧ EAR_THRESHOLD_PARTIALLY ≤ fs.ear) ∧
    (∀ (s : MonState) (fs : FeatureSet),
      AlertKind.eyesPartiallyClosed ∈ s.currentAlerts →
      fs.ear < EAR_THRESHOLD_CLOSED →
      AlertKind.eyesPartiallyClosed ∈ (processFrame s (some fs)).1.currentAlerts) ∧
    (AlertKind.eyesClosed ∈ (runFrames initialState c10Frames).currentAlerts ∧
      AlertKind.eyesPartiallyClosed ∈ (runFrames initialState c10Frames).currentAlerts) := by
  refine ⟨?_, ?_, ?_⟩
  · intro s i hmem hnot
    cases i with
    | none => exact absurd hmem hnot
    | some fs =>
      refine ⟨fs, rfl, ?_⟩
      by_contra hge
      push_neg at hge
      refine hnot ?_
      rw [processFrame_some_fst]
      exact headSection_keeps_eye_alert _ _ _ (by simp)
        (yawnSection_keeps_eye_alert _ _ _ (by simp) (by simp)
          (eyeSection_keeps_partial_alert fs.ear s hmem hge))
  · intro s fs hmem hlt
    rw [processFrame_some_fst]
    exact headSection_keeps_eye_alert _ _ _ (by simp)
      (yawnSection_keeps_eye_alert _ _ _ (by simp) (by simp)
        (eyeSection_keeps_partial_alert fs.ear s hmem
          (lt_trans hlt (by norm_num [EAR_THRESHOLD_CLOSED, EAR_THRESHOLD_PARTIALLY]))))
  · constructor <;> with_unfolding_all decide

/-- The head-yaw ratio exactly as §4.1 of the spec words it
(`leftDist / max(rightDist, ε)`, `ε = 0.001`): a second definition
following the spec's words, to compare with `calculateHeadPose`. -/
def headYawRatioSpec (landmarks : LandmarkFrame) : ℚ :=
  let leftDist := |(landmarks 1).x - (landmarks 234).x|
  let rightDist := |(landmarks 454).x - (landmarks 1).x|
  leftDist / max rightDist (1/1000)

/-- The all-origin landmark frame. -/
def zeroFrame : LandmarkFrame := fun _ => ⟨0, 0, 0⟩

/-- C4 counterexample frame: nose at the origin, left cheek at
`x = -1`, right cheek at `x = 1/2000`, so `leftDist = 1` and
`0 < rightDist = 1/2000 < 1/1000`. -/
def c4Frame : LandmarkFrame := fun i =>
  if i = 234 then ⟨-1, 0, 0⟩ else if i = 454 then ⟨1/2000, 0, 0⟩ else ⟨0, 0, 0⟩

set_option maxRecDepth 100000 in
/-- C4 counterexample: at `rightDist = 1/2000`, strictly between `0` and
`ε = 0.001`, the code divides by `rightDist` itself (yaw ratio `2000`),
not by `ε` as the claimed `max(rightDist, ε)` formula would
(yaw ratio `1000`). -/
theorem headYawRatio_epsilon_gap_counterexample :
    (calculateHeadPose c4Frame).yawRatio = 2000 ∧
    headYawRatioSpec c4Frame = 1000 ∧
    (calculateHeadPose c4Frame).yawRatio ≠ headYawRatioSpec c4Frame := by
  with_unfolding_all decide

/-- C4 amended: `calculateHeadPose` substitutes `ε = 0.001` for the
denominator only when `rightDist` is exactly `0` (and never surfaces an
error, being a total function); it agrees with the spec's
`leftDist / max(rightDist, ε)` exactly on frames whose `rightDist` is
`0` or at least `ε`, while a `rightDist` strictly between `0` and `ε`
is used as-is. -/
theorem headYawRatio_matches_spec_outside_gap (landmarks : LandmarkFrame)
    (h : |(landmarks 454).x - (landmarks 1).x| = 0 ∨
      (1/1000 : ℚ) ≤ |(landmarks 454).x - (landmarks 1).x|) :
    (calculateHeadPose landmarks).yawRatio = headYawRatioSpec landmarks := by
  simp only [calculateHeadPose, headYawRatioSpec]
  rcases h with h | h
  · rw [h, if_pos rfl, max_eq_right (by norm_num : (0:ℚ) ≤ 1/1000)]
  · have hne : |(landmarks 454).x - (landmarks 1).x| ≠ 0 :=
      ne_of_gt (lt_of_lt_of_le (by norm_num) h)
    rw [if_neg hne, max_eq_left h]

/-- Witness for C4 amended at the all-origin frame (`rightDist = 0`). -/
theorem headYawRatio_matches_spec_outside_gap_witness :
    (|(zeroFrame 454).x - (zeroFrame 1).x| = 0 ∨
      (1/1000 : ℚ) ≤ |(zeroFrame 454).x - (zeroFrame 1).x|) ∧
    (calculateHeadPose zeroFrame).yawRatio = headYawRatioSpec zeroFrame :=
  ⟨Or.inl (by with_unfolding_all decide),
    headYawRatio_matches_spec_outside_gap zeroFrame
      (Or.inl (by with_unfolding_all decide))⟩

/-- C7 witness frame: nose at the origin, cheeks at `x = -1` and
`x = 1`, symmetric with nonzero distances. -/
def c7Frame : LandmarkFrame := fun i =>
  if i = 234 then ⟨-1, 0, 0⟩ else if i = 454 then ⟨1, 0, 0⟩ else ⟨0, 0, 0⟩

/-- C7 counterexample: on the all-origin frame the cheek landmarks are
(degenerately) symmetric about the nose in x — `leftDist = rightDist`,
both `0` — yet the yaw ratio is `0 / ε = 0`, not `1.0`. -/
theorem headYawRatio_symmetric_zero_counterexample :
    |(zeroFrame 1).x - (zeroFrame 234).x| = |(zeroFrame 454).x - (zeroFrame 1).x| ∧
    (calculateHeadPose zeroFrame).yawRatio = 0 ∧
    (calculateHeadPose zeroFrame).yawRatio ≠ 1 := by
  with_unfolding_all decide

/-- C7 amended: whenever the cheek landmarks are symmetric about the
nose tip in x (`leftDist = rightDist`) and the common distance is
nonzero, `calculateHeadPose` returns yaw ratio exactly `1.0`; in the
degenerate symmetric case `leftDist = rightDist = 0` it returns `0`. -/
theorem headYawRatio_symmetric_nonzero_eq_one (landmarks : LandmarkFrame)
    (hsym : |(landmarks 1).x - (landmarks 234).x| =
      |(landmarks 454).x - (landmarks 1).x|)
    (hnz : |(landmarks 454).x - (landmarks 1).x| ≠ 0) :
    (calculateHeadPose landmarks).yawRatio = 1 := by
  simp only [calculateHeadPose]
  rw [if_neg hnz, hsym]
  exact div_self hnz

/-- Witness for C7 amended at a symmetric frame with unit distances. -/
theorem headYawRatio_symmetric_nonzero_eq_one_witness :
    (|(c7Frame 1).x - (c7Frame 234).x| = |(c7Frame 454).x - (c7Frame 1).x| ∧
      |(c7Frame 454).x - (c7Frame 1).x| ≠ 0) ∧
    (calculateHeadPose c7Frame).yawRatio = 1 :=
  ⟨⟨by with_unfolding_all decide, by with_unfolding_all decide⟩,
    headYawRatio_symmetric_nonzero_eq_one c7Frame (by with_unfolding_all decide)
      (by with_unfolding_all decide)⟩

/-- The head-yaw ratio as the C9 spec sentence would have it, with every
distance the full 3D Euclidean distance: a second definition following
the spec's words, to compare with `calculateHeadPose`. -/
noncomputable def headYawRatioSpec3D (landmarks : LandmarkFrame) : ℝ :=
  let leftDist := euclideanDistance (landmarks 1) (landmarks 234)
  let rightDist := euclideanDistance (landmarks 454) (landmarks 1)
  leftDist / max rightDist (1/1000)

/-- C9 counterexample frame: the left cheek differs from the nose only
in z, so its 1D horizontal distance is `0` while its 3D distance is `1`. -/
def c9Frame : LandmarkFrame := fun i =>
  if i = 234 then ⟨0, 0, 1⟩ else if i = 454 then ⟨1, 0, 0⟩ else ⟨0, 0, 0⟩

theorem euclideanDistance_000_001 : euclideanDistance ⟨0, 0, 0⟩ ⟨0, 0, 1⟩ = 1 := by
  rw [euclideanDistance]
  norm_num

theorem euclideanDistance_100_000 : euclideanDistance ⟨1, 0, 0⟩ ⟨0, 0, 0⟩ = 1 := by
  rw [euclideanDistance]
  norm_num

/-- C9 counterexample: on `c9Frame` the code's head-yaw ratio is `0`
(the nose-to-left-cheek |Δx| is `0`) while the ratio computed from full
3D Euclidean distances is `1`; so the head-yaw distances are not 3D. -/
theorem headYawRatio_not_3d_counterexample :
    (calculateHeadPose c9Frame).yawRatio = 0 ∧
    headYawRatioSpec3D c9Frame = 1 ∧
    ((calculateHeadPose c9Frame).yawRatio : ℝ) ≠ headYawRatioSpec3D c9Frame := by
  have h0 : (calculateHeadPose c9Frame).yawRatio = 0 := by with_unfolding_all decide
  have h1 : headYawRatioSpec3D c9Frame = 1 := by
    simp only [headYawRatioSpec3D]
    rw [show c9Frame 1 = ⟨0, 0, 0⟩ from rfl, show c9Frame 234 = ⟨0, 0, 1⟩ from rfl,
      show c9Frame 454 = ⟨1, 0, 0⟩ from rfl]
    rw [euclideanDistance_000_001, euclideanDistance_100_000,
      max_eq_left (by norm_num : (1/1000 : ℝ) ≤ 1), div_one]
  refine ⟨h0, h1, ?_⟩
  rw [h0, h1]
  norm_num

theorem euclideanDistance_000_000 : euclideanDistance ⟨0, 0, 0⟩ ⟨0, 0, 0⟩ = 0 := by
  rw [euclideanDistance]
  norm_num

theorem euclideanDistance_000_100 : euclideanDistance ⟨0, 0, 0⟩ ⟨1, 0, 0⟩ = 1 := by
  rw [euclideanDistance]
  norm_num

theorem euclideanDistance_001_000 : euclideanDistance ⟨0, 0, 1⟩ ⟨0, 0, 0⟩ = 1 := by
  rw [euclideanDistance]
  norm_num

/-- An eye configuration with both horizontal eye spans `1` and all lid
landmarks at the origin. -/
def earZFrameA : LandmarkFrame := fun i =>
  if i = 133 ∨ i = 263 then ⟨1, 0, 0⟩ else ⟨0, 0, 0⟩

/-- `earZFrameA` with landmark 160 (a left upper-lid point) moved only
in z. -/
def earZFrameB : LandmarkFrame := fun i =>
  if i = 160 then ⟨0, 0, 1⟩ else if i = 133 ∨ i = 263 then ⟨1, 0, 0⟩ else ⟨0, 0, 0⟩

/-- A mouth configuration with mouth width `1` and the lip landmarks at
the origin. -/
def marZFrameA : LandmarkFrame := fun i =>
  if i = 308 then ⟨1, 0, 0⟩ else ⟨0, 0, 0⟩

/-- `marZFrameA` with landmark 14 (the lower inner lip) moved only in z. -/
def marZFrameB : LandmarkFrame := fun i =>
  if i = 14 then ⟨0, 0, 1⟩ else if i = 308 then ⟨1, 0, 0⟩ else ⟨0, 0, 0⟩

/-- C9 amended: `euclideanDistance`, the only distance used by
`calculateEAR` and `calculateMAR`, is the full 3D
`sqrt(dx²+dy²+dz²)` — moving a single landmark only along z changes the
computed EAR (`0` to `1/4`) and MAR (`0` to `1`) — whereas
`calculateHeadPose` uses 1D horizontal `|Δx|` distances only: it is
invariant under arbitrary changes to y and z coordinates. -/
theorem ear_mar_distances_3d_but_head_pose_1d :
    (∀ p q : Point, euclideanDistance p q =
      Real.sqrt (((p.x - q.x) * (p.x - q.x) + (p.y - q.y) * (p.y - q.y)
        + (p.z - q.z) * (p.z - q.z) : ℚ) : ℝ)) ∧
    ((∀ i, (earZFrameA i).x = (earZFrameB i).x ∧ (earZFrameA i).y = (earZFrameB i).y) ∧
      calculateEAR earZFrameA = 0 ∧ calculateEAR earZFrameB = 1/4) ∧
    ((∀ i, (marZFrameA i).x = (marZFrameB i).x ∧ (marZFrameA i).y = (marZFrameB i).y) ∧
      calculateMAR marZFrameA = 0 ∧ calculateMAR marZFrameB = 1) ∧
    (∀ f g : LandmarkFrame, (∀ i, (f i).x = (g i).x) →
      calculateHeadPose f = calculateHeadPose g) := by
  refine ⟨fun p q => rfl, ⟨?_, ?_, ?_⟩, ⟨?_, ?_, ?_⟩, ?_⟩
  · intro i
    simp only [earZFrameA, earZFrameB]
    split_ifs <;> first | exact ⟨rfl, rfl⟩ | (exfalso; omega)
  · rw [calculateEAR]
    rw [show earZFrameA 160 = ⟨0, 0, 0⟩ from rfl, show earZFrameA 144 = ⟨0, 0, 0⟩ from rfl,
      show earZFrameA 158 = ⟨0, 0, 0⟩ from rfl, show earZFrameA 153 = ⟨0, 0, 0⟩ from rfl,
      show earZFrameA 33 = ⟨0, 0, 0⟩ from rfl, show earZFrameA 133 = ⟨1, 0, 0⟩ from rfl,
      show earZFrameA 385 = ⟨0, 0, 0⟩ from rfl, show earZFrameA 380 = ⟨0, 0, 0⟩ from rfl,
      show earZFrameA 387 = ⟨0, 0, 0⟩ from rfl, show earZFrameA 373 = ⟨0, 0, 0⟩ from rfl,
      show earZFrameA 362 = ⟨0, 0, 0⟩ from rfl, show earZFrameA 263 = ⟨1, 0, 0⟩ from rfl]
    rw [euclideanDistance_000_000, euclideanDistance_000_100]
    norm_num
  · rw [calculateEAR]
    rw [show earZFrameB 160 = ⟨0, 0, 1⟩ from rfl, show earZFrameB 144 = ⟨0, 0, 0⟩ from rfl,
      show earZFrameB 158 = ⟨0, 0, 0⟩ from rfl, show earZFrameB 153 = ⟨0, 0, 0⟩ from rfl,
      show earZFrameB 33 = ⟨0, 0, 0⟩ from rfl, show earZFrameB 133 = ⟨1, 0, 0⟩ from rfl,
      show earZFrameB 385 = ⟨0, 0, 0⟩ from rfl, show earZFrameB 380 = ⟨0, 0, 0⟩ from rfl,
      show earZFrameB 387 = ⟨0, 0, 0⟩ from rfl, show earZFrameB 373 = ⟨0, 0, 0⟩ from rfl,
      show earZFrameB 362 = ⟨0, 0, 0⟩ from rfl, show earZFrameB 263 = ⟨1, 0, 0⟩ from rfl]
    rw [euclideanDistance_000_000, euclideanDistance_000_100, euclideanDistance_001_000]
    norm_num
  · intro i
    simp only [marZFrameA, marZFrameB]
    split_ifs <;> first | exact ⟨rfl, rfl⟩ | (exfalso; omega)
  · rw [calculateMAR]
    rw [show marZFrameA 13 = ⟨0, 0, 0⟩ from rfl, show marZFrameA 14 = ⟨0, 0, 0⟩ from rfl,
      show marZFrameA 78 = ⟨0, 0, 0⟩ from rfl, show marZFrameA 308 = ⟨1, 0, 0⟩ from rfl]
    rw [euclideanDistance_000_000, euclideanDistance_000_100]
    norm_num
  · rw [calculateMAR]
    rw [show marZFrameB 13 = ⟨0, 0, 0⟩ from rfl, show marZFrameB 14 = ⟨0, 0, 1⟩ from rfl,
      show marZFrameB 78 = ⟨0, 0, 0⟩ from rfl, show marZFrameB 308 = ⟨1, 0, 0⟩ from rfl]
    rw [euclideanDistance_000_001, euclideanDistance_000_100]
    norm_num
  · intro f g hx
    simp only [calculateHeadPose]
    rw [hx 1, hx 234, hx 454]
